import Mathlib

/-!
# A textured-quad rendering pass: `src/loader/vbo_pass.c`

Shallow embedding of the pass (`mat4_ortho`, `compile`, `link`,
`make_texture_rgba8888`, `vbo_pass_init`, `vbo_pass_resize`, `vbo_pass_draw`,
`vbo_pass_shutdown`) and proofs of its contract.

Conventions of the embedding:

* `float` is the field of rationals (exact arithmetic);
* GL object names (`GLuint`) are naturals, locations (`GLint`) are integers;
* the GL driver is an oracle (`Driver`) that supplies every value the code reads
  back from GL: object names, compile and link status, info logs, locations;
* every function returns, next to its C result, the list of calls it issued
  (its trace), in program order.
-/

namespace VboPass

/-! ## Data model -/

abbrev GLuint := Nat
abbrev GLint := Int
abbrev GLfloat := ℚ

/-- The `float[16]` of a column-major 4x4 matrix. -/
abbrev Mat4 := Fin 16 → GLfloat

/-- Symbolic GL enumerants used by the pass (their numeric values live in `vitaGL.h`). -/
inductive GLenum
  | GL_VERTEX_SHADER | GL_FRAGMENT_SHADER | GL_COMPILE_STATUS | GL_LINK_STATUS
  | GL_TEXTURE_2D | GL_TEXTURE_MIN_FILTER | GL_TEXTURE_MAG_FILTER
  | GL_TEXTURE_WRAP_S | GL_TEXTURE_WRAP_T | GL_LINEAR | GL_CLAMP_TO_EDGE
  | GL_RGBA | GL_UNSIGNED_BYTE | GL_ARRAY_BUFFER | GL_ELEMENT_ARRAY_BUFFER
  | GL_STATIC_DRAW | GL_TEXTURE0 | GL_FLOAT | GL_TRIANGLES | GL_UNSIGNED_SHORT
  deriving DecidableEq, Repr

open GLenum

/-- One vertex: `typedef struct { float x, y; float r, g, b, a; float u, v; } VBO_Vtx;` -/
structure VBO_Vtx where
  x : GLfloat
  y : GLfloat
  r : GLfloat
  g : GLfloat
  b : GLfloat
  a : GLfloat
  u : GLfloat
  v : GLfloat
  deriving DecidableEq

/-- The pass state: `typedef struct { ... } VBO_Pass;` -/
structure VBO_Pass where
  prog : GLuint
  u_proj : GLint
  u_sampler : GLint
  a_pos : GLint
  a_col : GLint
  a_uv : GLint
  vbo : GLuint
  ibo : GLuint
  tex : GLuint
  proj : Mat4

/-- The state after `memset(p, 0, sizeof(*p))`. -/
def VBO_Pass.zero : VBO_Pass :=
  { prog := 0, u_proj := 0, u_sampler := 0, a_pos := 0, a_col := 0, a_uv := 0,
    vbo := 0, ibo := 0, tex := 0, proj := fun _ => 0 }

/-- Pixel data behind a non-NULL `const void*`: RGBA8888 words. -/
abbrev Pixels := List Nat

/-- The client memory handed to `glBufferData`. -/
inductive BufferPayload
  | verts (vs : List VBO_Vtx)
  | indices (idx : List Nat)

/-- `sizeof(VBO_Vtx)`: eight 4-byte floats. -/
def sizeof_VBO_Vtx : Nat := 8 * 4

/-- `sizeof(GLushort)`. -/
def sizeof_GLushort : Nat := 2

/-- The calls issued by the pass, with the values the driver returned. -/
inductive Call
  | glCreateShader (type : GLenum) (ret : GLuint)
  | glShaderSource (sh : GLuint) (count : Nat) (src : String)
  | glCompileShader (sh : GLuint)
  | glGetShaderiv (sh : GLuint) (pname : GLenum) (ret : Bool)
  | glGetShaderInfoLog (sh : GLuint) (bufSize : Nat) (log : String)
  | sceClibPrintf (fmt : String) (arg : String)
  | glDeleteShader (sh : GLuint)
  | glCreateProgram (ret : GLuint)
  | glAttachShader (prog : GLuint) (sh : GLuint)
  | glBindAttribLocation (prog : GLuint) (index : GLuint) (name : String)
  | glLinkProgram (prog : GLuint)
  | glGetProgramiv (prog : GLuint) (pname : GLenum) (ret : Bool)
  | glGetProgramInfoLog (prog : GLuint) (bufSize : Nat) (log : String)
  | glDeleteProgram (prog : GLuint)
  | glGetUniformLocation (prog : GLuint) (name : String) (ret : GLint)
  | glGetAttribLocation (prog : GLuint) (name : String) (ret : GLint)
  | glGenBuffers (n : Nat) (ret : GLuint)
  | glBindBuffer (target : GLenum) (buf : GLuint)
  | glBufferData (target : GLenum) (size : Nat) (data : BufferPayload) (usage : GLenum)
  | glGenTextures (n : Nat) (ret : GLuint)
  | glBindTexture (target : GLenum) (tex : GLuint)
  | glTexParameteri (target : GLenum) (pname : GLenum) (param : GLenum)
  | glTexImage2D (target : GLenum) (level : Int) (internalformat : GLenum)
      (w : Int) (h : Int) (border : Int) (format : GLenum) (type : GLenum) (pixels : Pixels)
  | glUseProgram (prog : GLuint)
  | glUniformMatrix4fv (loc : GLint) (count : Nat) (transpose : Bool) (value : Mat4)
  | glActiveTexture (unit : GLenum)
  | glUniform1i (loc : GLint) (v : Int)
  | glEnableVertexAttribArray (index : GLuint)
  | glVertexAttribPointer (index : GLuint) (size : Nat) (type : GLenum)
      (normalized : Bool) (stride : Nat) (offset : Nat)
  | glDrawElements (mode : GLenum) (count : Nat) (type : GLenum) (offset : Nat)
  | glDisableVertexAttribArray (index : GLuint)
  | glDeleteTextures (n : Nat) (tex : GLuint)
  | glDeleteBuffers (n : Nat) (buf : GLuint)

open Call

/-- The GL driver as an oracle: every value the pass reads back from GL. -/
structure Driver where
  /-- Name returned by `glCreateShader(type)`. -/
  shaderName : GLenum → GLuint
  /-- `GL_COMPILE_STATUS` read back for the shader of that type. -/
  compileStatus : GLenum → Bool
  /-- Log read back by `glGetShaderInfoLog`. -/
  shaderInfoLog : GLenum → String
  /-- Name returned by `glCreateProgram()`. -/
  programName : GLuint
  /-- `GL_LINK_STATUS` read back for the program. -/
  linkStatus : Bool
  /-- Log read back by `glGetProgramInfoLog`. -/
  programInfoLog : String
  /-- Result of `glGetUniformLocation(prog, name)`. -/
  uniformLocation : String → GLint
  /-- Result of `glGetAttribLocation(prog, name)`. -/
  attribLocation : String → GLint
  /-- Name written by the `k`-th `glGenBuffers(1, ..)` call (`k = 0, 1`). -/
  bufferName : Nat → GLuint
  /-- Name written by `glGenTextures(1, ..)`. -/
  textureName : GLuint

/-! ## GLSL sources -/

def VS_SRC : String :=
  "attribute vec2 a_position;\n" ++
  "attribute vec4 a_color;\n" ++
  "attribute vec2 a_texCoord;\n" ++
  "uniform   mat4 u_projection;\n" ++
  "varying   vec2 v_texCoord;\n" ++
  "varying   vec4 v_color;\n" ++
  "void main()\x7b\n" ++
  "    v_texCoord = a_texCoord;\n" ++
  "    v_color    = a_color;\n" ++
  "    gl_Position = u_projection * vec4(a_position, 0.0, 1.0);\n" ++
  "    gl_PointSize = 1.0;\n" ++
  "\x7d\n"

def FS_SRC : String :=
  "precision mediump float;\n" ++
  "uniform sampler2D u_texture;\n" ++
  "varying vec2 v_texCoord;\n" ++
  "varying vec4 v_color;\n" ++
  "void main()\x7b\n" ++
  "    vec4 abgr = texture2D(u_texture, v_texCoord);\n" ++
  "    vec4 color = abgr;\n" ++
  "    float t = color.r; color.r = color.b; color.b = t; /* ABGR->RGBA swap */\n" ++
  "    color.a = 1.0;                                     /* force opaque   */\n" ++
  "    gl_FragColor = color * v_color;\n" ++
  "\x7d\n"

/-! ## Helpers -/

/-- The call `memset(m, 0, sizeof(float) * 16)` on a matrix. -/
@[simp] def memset_mat4 (_m : Mat4) : Mat4 := fun _ => 0

/-- The call `memset(p, 0, sizeof(*p))` on a pass. -/
@[simp] def memset_pass (_p : VBO_Pass) : VBO_Pass := VBO_Pass.zero

/-- The helper `mat4_ortho(m, l, r, b, t, n, f)`: `memset` then seven stores. -/
def mat4_ortho (m : Mat4) (l r b t n f : GLfloat) : Mat4 :=
  let m := memset_mat4 m
  let m := Function.update m 0 (2 / (r - l))
  let m := Function.update m 5 (2 / (t - b))
  let m := Function.update m 10 (-2 / (f - n))
  let m := Function.update m 12 (-(r + l) / (r - l))
  let m := Function.update m 13 (-(t + b) / (t - b))
  let m := Function.update m 14 (-(f + n) / (f - n))
  let m := Function.update m 15 1
  m

/-- The helper `compile(type, src)`: the shader name, or 0 after a compile error. -/
def compile (d : Driver) (type : GLenum) (src : String) : GLuint × List Call :=
  let sh := d.shaderName type
  let ok := d.compileStatus type
  let t := [glCreateShader type sh, glShaderSource sh 1 src, glCompileShader sh,
            glGetShaderiv sh GL_COMPILE_STATUS ok]
  if !ok then
    let log := d.shaderInfoLog type
    (0, t ++ [glGetShaderInfoLog sh 1024 log,
              sceClibPrintf "shader compile error: %s\n" log,
              glDeleteShader sh])
  else
    (sh, t)

/-- The helper `link(vs, fs, pos, col, uv)`: the program name, or 0 after a link error. -/
def link (d : Driver) (vs fs : GLuint) (pos col uv : String) : GLuint × List Call :=
  let prog := d.programName
  let ok := d.linkStatus
  let t := [glCreateProgram prog, glAttachShader prog vs, glAttachShader prog fs,
            glBindAttribLocation prog 0 pos, glBindAttribLocation prog 1 col,
            glBindAttribLocation prog 2 uv,
            glLinkProgram prog, glGetProgramiv prog GL_LINK_STATUS ok]
  if !ok then
    let log := d.programInfoLog
    (0, t ++ [glGetProgramInfoLog prog 1024 log,
              sceClibPrintf "program link error: %s\n" log,
              glDeleteProgram prog])
  else
    (prog, t)

/-- The helper `make_texture_rgba8888(pixels, w, h)`; `none` is the NULL pointer. -/
def make_texture_rgba8888 (d : Driver) (pixels : Option Pixels) (w h : Int) :
    GLuint × List Call :=
  let tex := d.textureName
  let t := [glGenTextures 1 tex, glBindTexture GL_TEXTURE_2D tex,
            glTexParameteri GL_TEXTURE_2D GL_TEXTURE_MIN_FILTER GL_LINEAR,
            glTexParameteri GL_TEXTURE_2D GL_TEXTURE_MAG_FILTER GL_LINEAR,
            glTexParameteri GL_TEXTURE_2D GL_TEXTURE_WRAP_S GL_CLAMP_TO_EDGE,
            glTexParameteri GL_TEXTURE_2D GL_TEXTURE_WRAP_T GL_CLAMP_TO_EDGE]
  match pixels with
  | none =>
    let one : Nat := 0xFFFFFFFF
    (tex, t ++ [glTexImage2D GL_TEXTURE_2D 0 GL_RGBA 1 1 0 GL_RGBA GL_UNSIGNED_BYTE [one]])
  | some px =>
    if w ≤ 0 ∨ h ≤ 0 then
      let one : Nat := 0xFFFFFFFF
      (tex, t ++ [glTexImage2D GL_TEXTURE_2D 0 GL_RGBA 1 1 0 GL_RGBA GL_UNSIGNED_BYTE [one]])
    else
      (tex, t ++ [glTexImage2D GL_TEXTURE_2D 0 GL_RGBA w h 0 GL_RGBA GL_UNSIGNED_BYTE px])

/-! ## API -/

/-- The function `vbo_pass_resize(p, screen_w, screen_h)`: rebuilds `p->proj`, no GL call. -/
def vbo_pass_resize (p : VBO_Pass) (screen_w screen_h : Int) : VBO_Pass :=
  { p with proj := mat4_ortho p.proj 0 (screen_w : GLfloat) (screen_h : GLfloat) 0 (-1) 1 }

/-- The `verts[4]` array of `vbo_pass_init`. -/
def init_verts : List VBO_Vtx :=
  let x : GLfloat := 100
  let y : GLfloat := 100
  let w : GLfloat := 256
  let h : GLfloat := 256
  [ { x := x + 0, y := y + 0, r := 1, g := 1, b := 1, a := 1, u := 0, v := 0 },
    { x := x + w, y := y + 0, r := 1, g := 1, b := 1, a := 1, u := 1, v := 0 },
    { x := x + w, y := y + h, r := 1, g := 1, b := 1, a := 1, u := 1, v := 1 },
    { x := x + 0, y := y + h, r := 1, g := 1, b := 1, a := 1, u := 0, v := 1 } ]

/-- The `idx[6]` array of `vbo_pass_init`. -/
def init_idx : List Nat := [0, 1, 2, 0, 2, 3]

/-- What a call of `vbo_pass_init` leaves behind: return value, `*p`, calls issued. -/
structure InitResult where
  ret : Int
  pass : VBO_Pass
  trace : List Call

/-- The function `vbo_pass_init(p, texture_rgba8888, tex_w, tex_h, screen_w, screen_h)`. -/
def vbo_pass_init (d : Driver) (p : VBO_Pass) (texture_rgba8888 : Option Pixels)
    (tex_w tex_h screen_w screen_h : Int) : InitResult :=
  let p := memset_pass p
  let (vs, t1) := compile d GL_VERTEX_SHADER VS_SRC
  if vs = 0 then { ret := 0, pass := p, trace := t1 } else
  let (fs, t2) := compile d GL_FRAGMENT_SHADER FS_SRC
  if fs = 0 then { ret := 0, pass := p, trace := t1 ++ t2 ++ [glDeleteShader vs] } else
  let (prog, t3) := link d vs fs "a_position" "a_color" "a_texCoord"
  let p := { p with prog := prog }
  let t := t1 ++ t2 ++ t3 ++ [glDeleteShader vs, glDeleteShader fs]
  if p.prog = 0 then { ret := 0, pass := p, trace := t } else
  let p := { p with u_proj := d.uniformLocation "u_projection" }
  let p := { p with u_sampler := d.uniformLocation "u_texture" }
  let p := { p with a_pos := d.attribLocation "a_position" }
  let p := { p with a_col := d.attribLocation "a_color" }
  let p := { p with a_uv := d.attribLocation "a_texCoord" }
  let t := t ++ [glGetUniformLocation p.prog "u_projection" p.u_proj,
                 glGetUniformLocation p.prog "u_texture" p.u_sampler,
                 glGetAttribLocation p.prog "a_position" p.a_pos,
                 glGetAttribLocation p.prog "a_color" p.a_col,
                 glGetAttribLocation p.prog "a_texCoord" p.a_uv]
  let p := vbo_pass_resize p screen_w screen_h
  let p := { p with vbo := d.bufferName 0 }
  let t := t ++ [glGenBuffers 1 p.vbo, glBindBuffer GL_ARRAY_BUFFER p.vbo,
                 glBufferData GL_ARRAY_BUFFER (init_verts.length * sizeof_VBO_Vtx)
                   (BufferPayload.verts init_verts) GL_STATIC_DRAW]
  let p := { p with ibo := d.bufferName 1 }
  let t := t ++ [glGenBuffers 1 p.ibo, glBindBuffer GL_ELEMENT_ARRAY_BUFFER p.ibo,
                 glBufferData GL_ELEMENT_ARRAY_BUFFER (init_idx.length * sizeof_GLushort)
                   (BufferPayload.indices init_idx) GL_STATIC_DRAW]
  let (tex, t4) := make_texture_rgba8888 d texture_rgba8888 tex_w tex_h
  let p := { p with tex := tex }
  { ret := 1, pass := p, trace := t ++ t4 }

/-- The cast `(GLuint)` of a `GLint`. -/
def toGLuint (i : GLint) : GLuint := (i % 2 ^ 32).toNat

/-- The function `vbo_pass_draw(p)`: the pass after the call and the calls issued. -/
def vbo_pass_draw (p : VBO_Pass) : VBO_Pass × List Call :=
  let stride := sizeof_VBO_Vtx
  let off_pos : Nat := 0
  let off_col : Nat := 2 * 4
  let off_uv : Nat := 6 * 4
  (p,
   [glUseProgram p.prog,
    glUniformMatrix4fv p.u_proj 1 false p.proj,
    glActiveTexture GL_TEXTURE0,
    glBindTexture GL_TEXTURE_2D p.tex,
    glUniform1i p.u_sampler 0,
    glBindBuffer GL_ARRAY_BUFFER p.vbo,
    glBindBuffer GL_ELEMENT_ARRAY_BUFFER p.ibo,
    glEnableVertexAttribArray (toGLuint p.a_pos),
    glVertexAttribPointer (toGLuint p.a_pos) 2 GL_FLOAT false stride off_pos,
    glEnableVertexAttribArray (toGLuint p.a_col),
    glVertexAttribPointer (toGLuint p.a_col) 4 GL_FLOAT false stride off_col,
    glEnableVertexAttribArray (toGLuint p.a_uv),
    glVertexAttribPointer (toGLuint p.a_uv) 2 GL_FLOAT false stride off_uv,
    glDrawElements GL_TRIANGLES 6 GL_UNSIGNED_SHORT 0,
    glDisableVertexAttribArray (toGLuint p.a_pos),
    glDisableVertexAttribArray (toGLuint p.a_col),
    glDisableVertexAttribArray (toGLuint p.a_uv),
    glBindBuffer GL_ARRAY_BUFFER 0,
    glBindBuffer GL_ELEMENT_ARRAY_BUFFER 0])

/-- The function `vbo_pass_shutdown(p)`: the pass after the call and the calls issued. -/
def vbo_pass_shutdown (p : VBO_Pass) : VBO_Pass × List Call :=
  let (p, t) : VBO_Pass × List Call :=
    if p.tex ≠ 0 then ({ p with tex := 0 }, [glDeleteTextures 1 p.tex]) else (p, [])
  let (p, t) : VBO_Pass × List Call :=
    if p.vbo ≠ 0 then ({ p with vbo := 0 }, t ++ [glDeleteBuffers 1 p.vbo]) else (p, t)
  let (p, t) : VBO_Pass × List Call :=
    if p.ibo ≠ 0 then ({ p with ibo := 0 }, t ++ [glDeleteBuffers 1 p.ibo]) else (p, t)
  let (p, t) : VBO_Pass × List Call :=
    if p.prog ≠ 0 then ({ p with prog := 0 }, t ++ [glDeleteProgram p.prog]) else (p, t)
  (p, t)

/-! ## Observations on matrices, geometry and traces -/

/-- The GLSL product `m * v` of a column-major `mat4` with a `vec4`. -/
def mat4_mul_vec4 (m : Mat4) (v : Fin 4 → GLfloat) : Fin 4 → GLfloat :=
  ![m 0 * v 0 + m 4 * v 1 + m 8 * v 2 + m 12 * v 3,
    m 1 * v 0 + m 5 * v 1 + m 9 * v 2 + m 13 * v 3,
    m 2 * v 0 + m 6 * v 1 + m 10 * v 2 + m 14 * v 3,
    m 3 * v 0 + m 7 * v 1 + m 11 * v 2 + m 15 * v 3]

/-- The vertex shader's `gl_Position = u_projection * vec4(a_position, 0.0, 1.0)`. -/
def gl_Position (u_projection : Mat4) (a_position : GLfloat × GLfloat) : Fin 4 → GLfloat :=
  mat4_mul_vec4 u_projection ![a_position.1, a_position.2, 0, 1]

/-- Signed area of the triangle `a b c` (the sign tells the winding). -/
def signedArea (a b c : VBO_Vtx) : GLfloat :=
  ((b.x - a.x) * (c.y - a.y) - (c.x - a.x) * (b.y - a.y)) / 2

/-- The triangles `GL_TRIANGLES` assembles from an index list: consecutive triples. -/
def triangles : List Nat → List (Nat × Nat × Nat)
  | i :: j :: k :: rest => (i, j, k) :: triangles rest
  | _ => []

/-- Signed area of an indexed triangle, when its three indices are in range. -/
def triangleArea (vs : List VBO_Vtx) (tri : Nat × Nat × Nat) : Option GLfloat :=
  match vs[tri.1]?, vs[tri.2.1]?, vs[tri.2.2]? with
  | some a, some b, some c => some (signedArea a b c)
  | _, _, _ => none

/-- Is the call a draw call? -/
def Call.isDraw : Call → Bool
  | glDrawElements _ _ _ _ => true
  | _ => false

/-- Is the call a texture image upload? -/
def Call.isTexImage : Call → Bool
  | glTexImage2D _ _ _ _ _ _ _ _ _ => true
  | _ => false

/-- Is the call a buffer data upload? -/
def Call.isBufferData : Call → Bool
  | glBufferData _ _ _ _ => true
  | _ => false

/-- Does the call name, bind or fill a buffer object or a texture object? -/
def Call.touchesBufferOrTexture : Call → Bool
  | glGenBuffers _ _ => true
  | glBindBuffer _ _ => true
  | glBufferData _ _ _ _ => true
  | glGenTextures _ _ => true
  | glBindTexture _ _ => true
  | glTexParameteri _ _ _ => true
  | glTexImage2D _ _ _ _ _ _ _ _ _ => true
  | _ => false

/-- Names returned by the `glCreateShader` calls of a trace, in order. -/
def createdShaders (t : List Call) : List GLuint :=
  t.filterMap fun c => match c with
    | glCreateShader _ n => some n
    | _ => none

/-- Names passed to the `glDeleteShader` calls of a trace, in order. -/
def deletedShaders (t : List Call) : List GLuint :=
  t.filterMap fun c => match c with
    | glDeleteShader n => some n
    | _ => none

/-- Names returned by the `glCreateProgram` calls of a trace, in order. -/
def createdPrograms (t : List Call) : List GLuint :=
  t.filterMap fun c => match c with
    | glCreateProgram n => some n
    | _ => none

/-- Names passed to the `glDeleteProgram` calls of a trace, in order. -/
def deletedPrograms (t : List Call) : List GLuint :=
  t.filterMap fun c => match c with
    | glDeleteProgram n => some n
    | _ => none

/-- A shader or program object, by name. -/
inductive GLObject
  | shader (n : GLuint)
  | program (n : GLuint)
  deriving DecidableEq

/-- Effect of one call on the list of shader and program objects that were created
and not yet handed to a delete call. -/
def Call.track (live : List GLObject) : Call → List GLObject
  | glCreateShader _ n => live ++ [GLObject.shader n]
  | glDeleteShader n => live.erase (GLObject.shader n)
  | glCreateProgram n => live ++ [GLObject.program n]
  | glDeleteProgram n => live.erase (GLObject.program n)
  | _ => live

/-- Shader and program objects left over by a trace that starts with none. -/
def liveObjects (t : List Call) : List GLObject :=
  t.foldl Call.track []

/-- The part of the GL context the draw call reads: current program, bindings,
and the matrix last uploaded to each uniform location of each program. -/
structure GLState where
  program : GLuint
  activeTexture : GLenum
  texture2D : GLenum → GLuint
  arrayBuffer : GLuint
  elementArrayBuffer : GLuint
  uniformMat4 : GLuint → GLint → Option Mat4

/-- Effect of one call on the tracked part of the GL context. -/
def Call.exec (s : GLState) : Call → GLState
  | glUseProgram prog => { s with program := prog }
  | glActiveTexture unit => { s with activeTexture := unit }
  | glBindTexture target tex =>
    if target = GL_TEXTURE_2D then
      { s with texture2D := Function.update s.texture2D s.activeTexture tex }
    else s
  | glBindBuffer target buf =>
    if target = GL_ARRAY_BUFFER then { s with arrayBuffer := buf }
    else if target = GL_ELEMENT_ARRAY_BUFFER then { s with elementArrayBuffer := buf }
    else s
  | glUniformMatrix4fv loc _ _ value =>
    let ofProgram := Function.update (s.uniformMat4 s.program) loc (some value)
    { s with uniformMat4 := Function.update s.uniformMat4 s.program ofProgram }
  | _ => s

/-- The tracked GL context after a trace. -/
def GLState.run (s : GLState) (t : List Call) : GLState :=
  t.foldl Call.exec s

/-- The trace of `vbo_pass_init` up to and including the shader clean-up, on the paths
that reach `link`. -/
def linkedCalls (d : Driver) : List Call :=
  (compile d GL_VERTEX_SHADER VS_SRC).2 ++ (compile d GL_FRAGMENT_SHADER FS_SRC).2 ++
    (link d (d.shaderName GL_VERTEX_SHADER) (d.shaderName GL_FRAGMENT_SHADER)
      "a_position" "a_color" "a_texCoord").2 ++
    [glDeleteShader (d.shaderName GL_VERTEX_SHADER),
     glDeleteShader (d.shaderName GL_FRAGMENT_SHADER)]

/-- The trace of a successful `vbo_pass_init` after the shader clean-up, up to the
texture creation. -/
def setupCalls (d : Driver) : List Call :=
  [glGetUniformLocation d.programName "u_projection" (d.uniformLocation "u_projection"),
   glGetUniformLocation d.programName "u_texture" (d.uniformLocation "u_texture"),
   glGetAttribLocation d.programName "a_position" (d.attribLocation "a_position"),
   glGetAttribLocation d.programName "a_color" (d.attribLocation "a_color"),
   glGetAttribLocation d.programName "a_texCoord" (d.attribLocation "a_texCoord"),
   glGenBuffers 1 (d.bufferName 0), glBindBuffer GL_ARRAY_BUFFER (d.bufferName 0),
   glBufferData GL_ARRAY_BUFFER 128 (BufferPayload.verts init_verts) GL_STATIC_DRAW,
   glGenBuffers 1 (d.bufferName 1), glBindBuffer GL_ELEMENT_ARRAY_BUFFER (d.bufferName 1),
   glBufferData GL_ELEMENT_ARRAY_BUFFER 12 (BufferPayload.indices init_idx) GL_STATIC_DRAW]

/-- The driver hands out a non-zero name for every shader it reports as compiled and
for a program it reports as linked (0 is GL's reserved "no object" name). -/
def Driver.NamesNonZero (d : Driver) : Prop :=
  (d.compileStatus GL_VERTEX_SHADER = true → d.shaderName GL_VERTEX_SHADER ≠ 0) ∧
  (d.compileStatus GL_FRAGMENT_SHADER = true → d.shaderName GL_FRAGMENT_SHADER ≠ 0) ∧
  (d.linkStatus = true → d.programName ≠ 0)

/-- A driver answering with the given three outcomes and fixed names 1..6. -/
def sampleDriver (vsOk fsOk linkOk : Bool) : Driver :=
  { shaderName := fun type => if type = GL_VERTEX_SHADER then 1 else 2
    compileStatus := fun type => if type = GL_VERTEX_SHADER then vsOk else fsOk
    shaderInfoLog := fun _ => "error"
    programName := 3
    linkStatus := linkOk
    programInfoLog := "error"
    uniformLocation := fun name => if name = "u_projection" then 0 else 1
    attribLocation := fun name =>
      if name = "a_position" then 0 else if name = "a_color" then 1 else 2
    bufferName := fun k => 4 + k
    textureName := 6 }

/-- A pass state with arbitrary non-zero contents. -/
def samplePass : VBO_Pass :=
  { prog := 7, u_proj := 3, u_sampler := 4, a_pos := 0, a_col := 1, a_uv := 2,
    vbo := 8, ibo := 9, tex := 10, proj := fun i => (i.val : GLfloat) + 1 }

end VboPass

/-! ## Theorems -/

namespace VboPass

open Call GLenum

/-- A sixteen-entry vector is determined by its entries. -/
lemma vec16_ext (f : Fin 16 → GLfloat)
    (a0 a1 a2 a3 a4 a5 a6 a7 a8 a9 a10 a11 a12 a13 a14 a15 : GLfloat)
    (h0 : f 0 = a0) (h1 : f 1 = a1) (h2 : f 2 = a2) (h3 : f 3 = a3)
    (h4 : f 4 = a4) (h5 : f 5 = a5) (h6 : f 6 = a6) (h7 : f 7 = a7)
    (h8 : f 8 = a8) (h9 : f 9 = a9) (h10 : f 10 = a10) (h11 : f 11 = a11)
    (h12 : f 12 = a12) (h13 : f 13 = a13) (h14 : f 14 = a14) (h15 : f 15 = a15) :
    f = ![a0, a1, a2, a3, a4, a5, a6, a7, a8, a9, a10, a11, a12, a13, a14, a15] := by
  funext i
  fin_cases i
  · exact h0
  · exact h1
  · exact h2
  · exact h3
  · exact h4
  · exact h5
  · exact h6
  · exact h7
  · exact h8
  · exact h9
  · exact h10
  · exact h11
  · exact h12
  · exact h13
  · exact h14
  · exact h15

/-- A four-entry vector is determined by its entries. -/
lemma vec4_ext (f : Fin 4 → GLfloat) (a0 a1 a2 a3 : GLfloat)
    (h0 : f 0 = a0) (h1 : f 1 = a1) (h2 : f 2 = a2) (h3 : f 3 = a3) :
    f = ![a0, a1, a2, a3] := by
  funext i
  fin_cases i
  · exact h0
  · exact h1
  · exact h2
  · exact h3

/-- Closed form of `mat4_ortho`: the sixteen entries after the call. -/
lemma mat4_ortho_eq (m : Mat4) (l r b t n f : GLfloat) :
    mat4_ortho m l r b t n f =
      ![2 / (r - l), 0, 0, 0,
        0, 2 / (t - b), 0, 0,
        0, 0, -2 / (f - n), 0,
        -(r + l) / (r - l), -(t + b) / (t - b), -(f + n) / (f - n), 1] := by
  apply vec16_ext <;> simp [mat4_ortho, Function.update]

/-- C8: over exact arithmetic, for `l ≠ r`, `b ≠ t`, `n ≠ f`, `mat4_ortho` overwrites all
sixteen entries of `m` whatever they were, with the column-major GL orthographic matrix:
applied to column vectors it sends `(l, b, -n, 1)` to `(-1, -1, -1, 1)` and `(r, t, -f, 1)`
to `(1, 1, 1, 1)`; every entry other than 0, 5, 10, 12, 13, 14, 15 is zero and entry 15
is 1. -/
theorem mat4_ortho_spec (m m' : Mat4) (l r b t n f : GLfloat)
    (hlr : l ≠ r) (hbt : b ≠ t) (hnf : n ≠ f) :
    mat4_ortho m l r b t n f = mat4_ortho m' l r b t n f ∧
    mat4_ortho m l r b t n f =
      ![2 / (r - l), 0, 0, 0,
        0, 2 / (t - b), 0, 0,
        0, 0, -2 / (f - n), 0,
        -(r + l) / (r - l), -(t + b) / (t - b), -(f + n) / (f - n), 1] ∧
    mat4_mul_vec4 (mat4_ortho m l r b t n f) ![l, b, -n, 1] = ![-1, -1, -1, 1] ∧
    mat4_mul_vec4 (mat4_ortho m l r b t n f) ![r, t, -f, 1] = ![1, 1, 1, 1] ∧
    (∀ i : Fin 16, i ≠ 0 → i ≠ 5 → i ≠ 10 → i ≠ 12 → i ≠ 13 → i ≠ 14 → i ≠ 15 →
      mat4_ortho m l r b t n f i = 0) ∧
    mat4_ortho m l r b t n f 15 = 1 := by
  have h1 : r - l ≠ 0 := sub_ne_zero.mpr (Ne.symm hlr)
  have h2 : t - b ≠ 0 := sub_ne_zero.mpr (Ne.symm hbt)
  have h3 : f - n ≠ 0 := sub_ne_zero.mpr (Ne.symm hnf)
  refine ⟨by rw [mat4_ortho_eq, mat4_ortho_eq], mat4_ortho_eq m l r b t n f, ?_, ?_, ?_, ?_⟩
  · apply vec4_ext <;>
      simp [mat4_mul_vec4, mat4_ortho, Function.update] <;> field_simp <;> ring
  · apply vec4_ext <;>
      simp [mat4_mul_vec4, mat4_ortho, Function.update] <;> field_simp <;> ring
  · intro i
    fin_cases i <;> simp [mat4_ortho, Function.update]
  · simp [mat4_ortho, Function.update]

/-- Witness for C8: the projection of a 960x544 screen, built over a non-zero matrix. -/
theorem mat4_ortho_spec_witness :
    mat4_mul_vec4 (mat4_ortho samplePass.proj 0 960 544 0 (-1) 1) ![0, 544, -(-1), 1]
      = ![-1, -1, -1, 1] :=
  (mat4_ortho_spec samplePass.proj samplePass.proj 0 960 544 0 (-1) 1
    (by norm_num) (by norm_num) (by norm_num)).2.2.1

/-- C3: over exact arithmetic, for `screen_w ≠ 0` and `screen_h ≠ 0` and whatever `p->proj`
held, `vbo_pass_resize` sets `p->proj` to the column-major matrix
`[2/screen_w,0,0,0, 0,-2/screen_h,0,0, 0,0,-1,0, -1,1,0,1]`; the vertex shader then maps the
screen point `(0,0)` to the clip corner `(-1, 1)` and `(screen_w, screen_h)` to `(1, -1)`:
origin at top-left, y pointing down. -/
theorem vbo_pass_resize_proj (p : VBO_Pass) (screen_w screen_h : Int)
    (hw : screen_w ≠ 0) (hh : screen_h ≠ 0) :
    (vbo_pass_resize p screen_w screen_h).proj =
      ![2 / (screen_w : GLfloat), 0, 0, 0,
        0, -2 / (screen_h : GLfloat), 0, 0,
        0, 0, -1, 0,
        -1, 1, 0, 1] ∧
    gl_Position (vbo_pass_resize p screen_w screen_h).proj (0, 0) = ![-1, 1, 0, 1] ∧
    gl_Position (vbo_pass_resize p screen_w screen_h).proj
      ((screen_w : GLfloat), (screen_h : GLfloat)) = ![1, -1, 0, 1] := by
  have h1 : (screen_w : GLfloat) ≠ 0 := Int.cast_ne_zero.mpr hw
  have h2 : (screen_h : GLfloat) ≠ 0 := Int.cast_ne_zero.mpr hh
  have h3 : -(screen_h : GLfloat) ≠ 0 := neg_ne_zero.mpr h2
  refine ⟨?_, ?_, ?_⟩
  · apply vec16_ext <;>
      simp [vbo_pass_resize, mat4_ortho, Function.update] <;>
      first | done | (field_simp; done) | (field_simp; ring)
  · apply vec4_ext <;>
      simp [gl_Position, mat4_mul_vec4, vbo_pass_resize, mat4_ortho, Function.update] <;>
      field_simp
  · apply vec4_ext <;>
      simp [gl_Position, mat4_mul_vec4, vbo_pass_resize, mat4_ortho, Function.update] <;>
      first | done | (field_simp; done) | (field_simp; ring)

/-- Witness for C3: a 960x544 screen, starting from a non-zero projection. -/
theorem vbo_pass_resize_proj_witness :
    gl_Position (vbo_pass_resize samplePass 960 544).proj (((960 : Int) : GLfloat),
      ((544 : Int) : GLfloat)) = ![1, -1, 0, 1] :=
  (vbo_pass_resize_proj samplePass 960 544 (by decide) (by decide)).2.2

/-- A successful `compile` returns the driver's name and issues no delete. -/
lemma compile_ok (d : Driver) (type : GLenum) (src : String)
    (h : d.compileStatus type = true) :
    compile d type src =
      (d.shaderName type,
       [glCreateShader type (d.shaderName type), glShaderSource (d.shaderName type) 1 src,
        glCompileShader (d.shaderName type),
        glGetShaderiv (d.shaderName type) GL_COMPILE_STATUS true]) := by
  simp [compile, h]

/-- A failed `compile` logs, deletes the shader and returns 0. -/
lemma compile_fail (d : Driver) (type : GLenum) (src : String)
    (h : d.compileStatus type = false) :
    compile d type src =
      (0,
       [glCreateShader type (d.shaderName type), glShaderSource (d.shaderName type) 1 src,
        glCompileShader (d.shaderName type),
        glGetShaderiv (d.shaderName type) GL_COMPILE_STATUS false,
        glGetShaderInfoLog (d.shaderName type) 1024 (d.shaderInfoLog type),
        sceClibPrintf "shader compile error: %s\n" (d.shaderInfoLog type),
        glDeleteShader (d.shaderName type)]) := by
  simp [compile, h]

/-- A successful `link` returns the driver's program name and issues no delete. -/
lemma link_ok (d : Driver) (vs fs : GLuint) (pos col uv : String) (h : d.linkStatus = true) :
    link d vs fs pos col uv =
      (d.programName,
       [glCreateProgram d.programName, glAttachShader d.programName vs,
        glAttachShader d.programName fs,
        glBindAttribLocation d.programName 0 pos, glBindAttribLocation d.programName 1 col,
        glBindAttribLocation d.programName 2 uv,
        glLinkProgram d.programName, glGetProgramiv d.programName GL_LINK_STATUS true]) := by
  simp [link, h]

/-- A failed `link` logs, deletes the program and returns 0. -/
lemma link_fail (d : Driver) (vs fs : GLuint) (pos col uv : String) (h : d.linkStatus = false) :
    link d vs fs pos col uv =
      (0,
       [glCreateProgram d.programName, glAttachShader d.programName vs,
        glAttachShader d.programName fs,
        glBindAttribLocation d.programName 0 pos, glBindAttribLocation d.programName 1 col,
        glBindAttribLocation d.programName 2 uv,
        glLinkProgram d.programName, glGetProgramiv d.programName GL_LINK_STATUS false,
        glGetProgramInfoLog d.programName 1024 d.programInfoLog,
        sceClibPrintf "program link error: %s\n" d.programInfoLog,
        glDeleteProgram d.programName]) := by
  simp [link, h]

/-- Path 1 of `vbo_pass_init`: `compile` returns 0 for the vertex shader. -/
lemma init_vs_fail (d : Driver) (p : VBO_Pass) (px : Option Pixels) (tw th sw sh : Int)
    (h : (compile d GL_VERTEX_SHADER VS_SRC).1 = 0) :
    vbo_pass_init d p px tw th sw sh =
      { ret := 0, pass := VBO_Pass.zero, trace := (compile d GL_VERTEX_SHADER VS_SRC).2 } := by
  simp [vbo_pass_init, h]

/-- Path 2 of `vbo_pass_init`: `compile` returns 0 for the fragment shader. -/
lemma init_fs_fail (d : Driver) (p : VBO_Pass) (px : Option Pixels) (tw th sw sh : Int)
    (hv : (compile d GL_VERTEX_SHADER VS_SRC).1 ≠ 0)
    (h : (compile d GL_FRAGMENT_SHADER FS_SRC).1 = 0) :
    vbo_pass_init d p px tw th sw sh =
      { ret := 0, pass := VBO_Pass.zero,
        trace := (compile d GL_VERTEX_SHADER VS_SRC).2 ++
          (compile d GL_FRAGMENT_SHADER FS_SRC).2 ++
          [glDeleteShader (compile d GL_VERTEX_SHADER VS_SRC).1] } := by
  simp [vbo_pass_init, h, hv]

/-- Path 3 of `vbo_pass_init`: `link` returns 0. -/
lemma init_link_fail (d : Driver) (p : VBO_Pass) (px : Option Pixels) (tw th sw sh : Int)
    (hv : (compile d GL_VERTEX_SHADER VS_SRC).1 ≠ 0)
    (hf : (compile d GL_FRAGMENT_SHADER FS_SRC).1 ≠ 0)
    (h : (link d (compile d GL_VERTEX_SHADER VS_SRC).1 (compile d GL_FRAGMENT_SHADER FS_SRC).1
            "a_position" "a_color" "a_texCoord").1 = 0) :
    vbo_pass_init d p px tw th sw sh =
      { ret := 0, pass := VBO_Pass.zero,
        trace := (compile d GL_VERTEX_SHADER VS_SRC).2 ++
          (compile d GL_FRAGMENT_SHADER FS_SRC).2 ++
          (link d (compile d GL_VERTEX_SHADER VS_SRC).1 (compile d GL_FRAGMENT_SHADER FS_SRC).1
            "a_position" "a_color" "a_texCoord").2 ++
          [glDeleteShader (compile d GL_VERTEX_SHADER VS_SRC).1,
           glDeleteShader (compile d GL_FRAGMENT_SHADER FS_SRC).1] } := by
  simp [vbo_pass_init, h, hv, hf, VBO_Pass.zero]

/-- Path 4 of `vbo_pass_init`: both shaders and the program have non-zero names. -/
lemma init_success (d : Driver) (p : VBO_Pass) (px : Option Pixels) (tw th sw sh : Int)
    (hv : (compile d GL_VERTEX_SHADER VS_SRC).1 ≠ 0)
    (hf : (compile d GL_FRAGMENT_SHADER FS_SRC).1 ≠ 0)
    (h : (link d (compile d GL_VERTEX_SHADER VS_SRC).1 (compile d GL_FRAGMENT_SHADER FS_SRC).1
            "a_position" "a_color" "a_texCoord").1 ≠ 0) :
    vbo_pass_init d p px tw th sw sh =
      { ret := 1,
        pass :=
          { prog := (link d (compile d GL_VERTEX_SHADER VS_SRC).1
              (compile d GL_FRAGMENT_SHADER FS_SRC).1 "a_position" "a_color" "a_texCoord").1
            u_proj := d.uniformLocation "u_projection"
            u_sampler := d.uniformLocation "u_texture"
            a_pos := d.attribLocation "a_position"
            a_col := d.attribLocation "a_color"
            a_uv := d.attribLocation "a_texCoord"
            vbo := d.bufferName 0
            ibo := d.bufferName 1
            tex := (make_texture_rgba8888 d px tw th).1
            proj := mat4_ortho (fun _ => 0) 0 (sw : GLfloat) (sh : GLfloat) 0 (-1) 1 },
        trace := (compile d GL_VERTEX_SHADER VS_SRC).2 ++
          (compile d GL_FRAGMENT_SHADER FS_SRC).2 ++
          (link d (compile d GL_VERTEX_SHADER VS_SRC).1 (compile d GL_FRAGMENT_SHADER FS_SRC).1
            "a_position" "a_color" "a_texCoord").2 ++
          [glDeleteShader (compile d GL_VERTEX_SHADER VS_SRC).1,
           glDeleteShader (compile d GL_FRAGMENT_SHADER FS_SRC).1] ++
          [glGetUniformLocation (link d (compile d GL_VERTEX_SHADER VS_SRC).1
              (compile d GL_FRAGMENT_SHADER FS_SRC).1 "a_position" "a_color" "a_texCoord").1
              "u_projection" (d.uniformLocation "u_projection"),
           glGetUniformLocation (link d (compile d GL_VERTEX_SHADER VS_SRC).1
              (compile d GL_FRAGMENT_SHADER FS_SRC).1 "a_position" "a_color" "a_texCoord").1
              "u_texture" (d.uniformLocation "u_texture"),
           glGetAttribLocation (link d (compile d GL_VERTEX_SHADER VS_SRC).1
              (compile d GL_FRAGMENT_SHADER FS_SRC).1 "a_position" "a_color" "a_texCoord").1
              "a_position" (d.attribLocation "a_position"),
           glGetAttribLocation (link d (compile d GL_VERTEX_SHADER VS_SRC).1
              (compile d GL_FRAGMENT_SHADER FS_SRC).1 "a_position" "a_color" "a_texCoord").1
              "a_color" (d.attribLocation "a_color"),
           glGetAttribLocation (link d (compile d GL_VERTEX_SHADER VS_SRC).1
              (compile d GL_FRAGMENT_SHADER FS_SRC).1 "a_position" "a_color" "a_texCoord").1
              "a_texCoord" (d.attribLocation "a_texCoord")] ++
          [glGenBuffers 1 (d.bufferName 0), glBindBuffer GL_ARRAY_BUFFER (d.bufferName 0),
           glBufferData GL_ARRAY_BUFFER 128 (BufferPayload.verts init_verts) GL_STATIC_DRAW] ++
          [glGenBuffers 1 (d.bufferName 1),
           glBindBuffer GL_ELEMENT_ARRAY_BUFFER (d.bufferName 1),
           glBufferData GL_ELEMENT_ARRAY_BUFFER 12 (BufferPayload.indices init_idx)
             GL_STATIC_DRAW] ++
          (make_texture_rgba8888 d px tw th).2 } := by
  simp [vbo_pass_init, h, hv, hf, VBO_Pass.zero, vbo_pass_resize, init_verts, init_idx,
    sizeof_VBO_Vtx, sizeof_GLushort, mat4_ortho]

/-- The vertex shader fails to compile: `vbo_pass_init` stops after `compile`. -/
lemma init_of_vs_false (d : Driver) (p : VBO_Pass) (px : Option Pixels) (tw th sw sh : Int)
    (hv : d.compileStatus GL_VERTEX_SHADER = false) :
    vbo_pass_init d p px tw th sw sh =
      { ret := 0, pass := VBO_Pass.zero, trace := (compile d GL_VERTEX_SHADER VS_SRC).2 } :=
  init_vs_fail d p px tw th sw sh (by rw [compile_fail d _ _ hv])

/-- The fragment shader fails to compile: the vertex shader is deleted and init stops. -/
lemma init_of_fs_false (d : Driver) (hd : d.NamesNonZero) (p : VBO_Pass) (px : Option Pixels)
    (tw th sw sh : Int)
    (hv : d.compileStatus GL_VERTEX_SHADER = true)
    (hf : d.compileStatus GL_FRAGMENT_SHADER = false) :
    vbo_pass_init d p px tw th sw sh =
      { ret := 0, pass := VBO_Pass.zero,
        trace := (compile d GL_VERTEX_SHADER VS_SRC).2 ++
          (compile d GL_FRAGMENT_SHADER FS_SRC).2 ++
          [glDeleteShader (d.shaderName GL_VERTEX_SHADER)] } := by
  have h1 : (compile d GL_VERTEX_SHADER VS_SRC).1 = d.shaderName GL_VERTEX_SHADER := by
    rw [compile_ok d _ _ hv]
  rw [init_fs_fail d p px tw th sw sh (by rw [h1]; exact hd.1 hv)
    (by rw [compile_fail d _ _ hf]), h1]

/-- The program fails to link: both shaders are deleted and init stops. -/
lemma init_of_link_false (d : Driver) (hd : d.NamesNonZero) (p : VBO_Pass)
    (px : Option Pixels) (tw th sw sh : Int)
    (hv : d.compileStatus GL_VERTEX_SHADER = true)
    (hf : d.compileStatus GL_FRAGMENT_SHADER = true)
    (hl : d.linkStatus = false) :
    vbo_pass_init d p px tw th sw sh =
      { ret := 0, pass := VBO_Pass.zero, trace := linkedCalls d } := by
  have h1 : (compile d GL_VERTEX_SHADER VS_SRC).1 = d.shaderName GL_VERTEX_SHADER := by
    rw [compile_ok d _ _ hv]
  have h2 : (compile d GL_FRAGMENT_SHADER FS_SRC).1 = d.shaderName GL_FRAGMENT_SHADER := by
    rw [compile_ok d _ _ hf]
  rw [init_link_fail d p px tw th sw sh (by rw [h1]; exact hd.1 hv)
    (by rw [h2]; exact hd.2.1 hf) (by rw [link_fail d _ _ _ _ _ hl]), h1, h2]
  rfl

/-- Everything succeeds: the state and the whole trace of `vbo_pass_init`. -/
lemma init_of_all_ok (d : Driver) (hd : d.NamesNonZero) (p : VBO_Pass)
    (px : Option Pixels) (tw th sw sh : Int)
    (hv : d.compileStatus GL_VERTEX_SHADER = true)
    (hf : d.compileStatus GL_FRAGMENT_SHADER = true)
    (hl : d.linkStatus = true) :
    vbo_pass_init d p px tw th sw sh =
      { ret := 1,
        pass :=
          { prog := d.programName
            u_proj := d.uniformLocation "u_projection"
            u_sampler := d.uniformLocation "u_texture"
            a_pos := d.attribLocation "a_position"
            a_col := d.attribLocation "a_color"
            a_uv := d.attribLocation "a_texCoord"
            vbo := d.bufferName 0
            ibo := d.bufferName 1
            tex := (make_texture_rgba8888 d px tw th).1
            proj := mat4_ortho (fun _ => 0) 0 (sw : GLfloat) (sh : GLfloat) 0 (-1) 1 },
        trace := linkedCalls d ++ setupCalls d ++ (make_texture_rgba8888 d px tw th).2 } := by
  have h1 : (compile d GL_VERTEX_SHADER VS_SRC).1 = d.shaderName GL_VERTEX_SHADER := by
    rw [compile_ok d _ _ hv]
  have h2 : (compile d GL_FRAGMENT_SHADER FS_SRC).1 = d.shaderName GL_FRAGMENT_SHADER := by
    rw [compile_ok d _ _ hf]
  have h3 : ∀ vs fs, (link d vs fs "a_position" "a_color" "a_texCoord").1 = d.programName := by
    intro vs fs
    rw [link_ok d _ _ _ _ _ hl]
  rw [init_success d p px tw th sw sh (by rw [h1]; exact hd.1 hv)
    (by rw [h2]; exact hd.2.1 hf) (by rw [h3]; exact hd.2.2 hl), h1, h2, h3]
  simp [linkedCalls, setupCalls]

/-- C1: with the GL driver as an oracle for the two compile outcomes and the link outcome
(handing out non-zero names for what it reports as compiled or linked), for every argument
list `vbo_pass_init` returns 1 exactly when the vertex shader compiles, the fragment shader
compiles and the program links; otherwise it returns 0, its trace stops at the failing step
(followed only by the deletion of the shaders compiled so far) and contains no call that
names, binds or fills a buffer or a texture. -/
theorem vbo_pass_init_ret (d : Driver) (hd : d.NamesNonZero) (p : VBO_Pass)
    (px : Option Pixels) (tw th sw sh : Int) :
    ((vbo_pass_init d p px tw th sw sh).ret = 1 ↔
      (d.compileStatus GL_VERTEX_SHADER = true ∧ d.compileStatus GL_FRAGMENT_SHADER = true ∧
        d.linkStatus = true)) ∧
    (¬ (d.compileStatus GL_VERTEX_SHADER = true ∧ d.compileStatus GL_FRAGMENT_SHADER = true ∧
        d.linkStatus = true) →
      (vbo_pass_init d p px tw th sw sh).ret = 0 ∧
      ∀ c ∈ (vbo_pass_init d p px tw th sw sh).trace, c.touchesBufferOrTexture = false) ∧
    (d.compileStatus GL_VERTEX_SHADER = false →
      (vbo_pass_init d p px tw th sw sh).trace = (compile d GL_VERTEX_SHADER VS_SRC).2) ∧
    (d.compileStatus GL_VERTEX_SHADER = true → d.compileStatus GL_FRAGMENT_SHADER = false →
      (vbo_pass_init d p px tw th sw sh).trace =
        (compile d GL_VERTEX_SHADER VS_SRC).2 ++ (compile d GL_FRAGMENT_SHADER FS_SRC).2 ++
          [glDeleteShader (d.shaderName GL_VERTEX_SHADER)]) ∧
    (d.compileStatus GL_VERTEX_SHADER = true → d.compileStatus GL_FRAGMENT_SHADER = true →
      d.linkStatus = false →
      (vbo_pass_init d p px tw th sw sh).trace = linkedCalls d) := by
  cases hv : d.compileStatus GL_VERTEX_SHADER
  · rw [init_of_vs_false d p px tw th sw sh hv]
    simp [compile_fail d _ _ hv, Call.touchesBufferOrTexture]
  · cases hf : d.compileStatus GL_FRAGMENT_SHADER
    · rw [init_of_fs_false d hd p px tw th sw sh hv hf]
      simp [compile_fail d _ _ hf, compile_ok d _ _ hv, Call.touchesBufferOrTexture]
    · cases hl : d.linkStatus
      · rw [init_of_link_false d hd p px tw th sw sh hv hf hl]
        simp [linkedCalls, compile_ok d _ _ hf, compile_ok d _ _ hv, link_fail d _ _ _ _ _ hl,
          Call.touchesBufferOrTexture]
      · rw [init_of_all_ok d hd p px tw th sw sh hv hf hl]
        simp

/-- Witness for C1: a driver for which everything succeeds makes `vbo_pass_init` return 1. -/
theorem vbo_pass_init_ret_witness :
    (vbo_pass_init (sampleDriver true true true) samplePass none 0 0 960 544).ret = 1 :=
  (vbo_pass_init_ret (sampleDriver true true true)
    ⟨fun _ => by decide, fun _ => by decide, fun _ => by decide⟩
    samplePass none 0 0 960 544).1.mpr ⟨rfl, rfl, rfl⟩

/-- The return value of `vbo_pass_init` is 0 or 1, and it is 1 only when `compile` and
`link` all returned non-zero names. -/
lemma init_ret_cases (d : Driver) (p : VBO_Pass) (px : Option Pixels) (tw th sw sh : Int) :
    ((vbo_pass_init d p px tw th sw sh).ret = 0 ∧
      (vbo_pass_init d p px tw th sw sh).pass = VBO_Pass.zero) ∨
    ((vbo_pass_init d p px tw th sw sh).ret = 1 ∧
      (compile d GL_VERTEX_SHADER VS_SRC).1 ≠ 0 ∧
      (compile d GL_FRAGMENT_SHADER FS_SRC).1 ≠ 0 ∧
      (link d (compile d GL_VERTEX_SHADER VS_SRC).1 (compile d GL_FRAGMENT_SHADER FS_SRC).1
        "a_position" "a_color" "a_texCoord").1 ≠ 0) := by
  by_cases hv : (compile d GL_VERTEX_SHADER VS_SRC).1 = 0
  · left
    rw [init_vs_fail d p px tw th sw sh hv]
    exact ⟨rfl, rfl⟩
  · by_cases hf : (compile d GL_FRAGMENT_SHADER FS_SRC).1 = 0
    · left
      rw [init_fs_fail d p px tw th sw sh hv hf]
      exact ⟨rfl, rfl⟩
    · by_cases hl : (link d (compile d GL_VERTEX_SHADER VS_SRC).1
          (compile d GL_FRAGMENT_SHADER FS_SRC).1 "a_position" "a_color" "a_texCoord").1 = 0
      · left
        rw [init_link_fail d p px tw th sw sh hv hf hl]
        exact ⟨rfl, rfl⟩
      · right
        rw [init_success d p px tw th sw sh hv hf hl]
        exact ⟨rfl, hv, hf, hl⟩

/-- C5: whatever `*p` contained before the call, every `vbo_pass_init` that returns 0
leaves `*p` all-zero: `prog`, `vbo`, `ibo`, `tex`, the five location fields and the sixteen
entries of `proj` are 0. -/
theorem vbo_pass_init_fail_zero (d : Driver) (p : VBO_Pass) (px : Option Pixels)
    (tw th sw sh : Int) (h : (vbo_pass_init d p px tw th sw sh).ret = 0) :
    (vbo_pass_init d p px tw th sw sh).pass = VBO_Pass.zero ∧
    (vbo_pass_init d p px tw th sw sh).pass.prog = 0 ∧
    (vbo_pass_init d p px tw th sw sh).pass.vbo = 0 ∧
    (vbo_pass_init d p px tw th sw sh).pass.ibo = 0 ∧
    (vbo_pass_init d p px tw th sw sh).pass.tex = 0 ∧
    (vbo_pass_init d p px tw th sw sh).pass.u_proj = 0 ∧
    (vbo_pass_init d p px tw th sw sh).pass.u_sampler = 0 ∧
    (vbo_pass_init d p px tw th sw sh).pass.a_pos = 0 ∧
    (vbo_pass_init d p px tw th sw sh).pass.a_col = 0 ∧
    (vbo_pass_init d p px tw th sw sh).pass.a_uv = 0 ∧
    ∀ i : Fin 16, (vbo_pass_init d p px tw th sw sh).pass.proj i = 0 := by
  rcases init_ret_cases d p px tw th sw sh with ⟨_, hz⟩ | ⟨h1, _⟩
  · rw [hz]
    exact ⟨rfl, rfl, rfl, rfl, rfl, rfl, rfl, rfl, rfl, rfl, fun _ => rfl⟩
  · rw [h1] at h
    exact absurd h (by decide)

/-- Witness for C5: a link failure over a non-zero pass state leaves the zero state. -/
theorem vbo_pass_init_fail_zero_witness :
    (vbo_pass_init (sampleDriver true true false) samplePass none 0 0 960 544).pass
      = VBO_Pass.zero :=
  (vbo_pass_init_fail_zero (sampleDriver true true false) samplePass none 0 0 960 544
    (by simp [vbo_pass_init, compile, link, sampleDriver])).1

/-- Whatever its arguments, `make_texture_rgba8888` returns the driver's texture name
after one fixed sequence of calls that ends with a single image upload. -/
lemma make_texture_shape (d : Driver) (px : Option Pixels) (w h : Int) :
    ∃ (uw uh : Int) (data : Pixels),
      make_texture_rgba8888 d px w h =
        (d.textureName,
         [glGenTextures 1 d.textureName, glBindTexture GL_TEXTURE_2D d.textureName,
          glTexParameteri GL_TEXTURE_2D GL_TEXTURE_MIN_FILTER GL_LINEAR,
          glTexParameteri GL_TEXTURE_2D GL_TEXTURE_MAG_FILTER GL_LINEAR,
          glTexParameteri GL_TEXTURE_2D GL_TEXTURE_WRAP_S GL_CLAMP_TO_EDGE,
          glTexParameteri GL_TEXTURE_2D GL_TEXTURE_WRAP_T GL_CLAMP_TO_EDGE,
          glTexImage2D GL_TEXTURE_2D 0 GL_RGBA uw uh 0 GL_RGBA GL_UNSIGNED_BYTE data]) := by
  cases px with
  | none => exact ⟨1, 1, [0xFFFFFFFF], rfl⟩
  | some data =>
    by_cases hc : w ≤ 0 ∨ h ≤ 0
    · exact ⟨1, 1, [0xFFFFFFFF], by simp [make_texture_rgba8888, hc]⟩
    · exact ⟨w, h, data, by simp [make_texture_rgba8888, hc]⟩

/-- C9: over the call trace of `vbo_pass_init`, on every path (vertex compile fails,
fragment compile fails, link fails, success) every shader name is passed to `glDeleteShader`
exactly as often as `glCreateShader` returned it; the program is created only when both
shaders compiled and is deleted if and only if it was created and linking failed; so a
failed init leaves no shader or program object behind and a successful init leaves exactly
the program `p->prog`. -/
theorem vbo_pass_init_objects (d : Driver) (hd : d.NamesNonZero) (p : VBO_Pass)
    (px : Option Pixels) (tw th sw sh : Int) :
    (∀ n, (deletedShaders (vbo_pass_init d p px tw th sw sh).trace).count n =
      (createdShaders (vbo_pass_init d p px tw th sw sh).trace).count n) ∧
    createdShaders (vbo_pass_init d p px tw th sw sh).trace =
      (if d.compileStatus GL_VERTEX_SHADER = true
        then [d.shaderName GL_VERTEX_SHADER, d.shaderName GL_FRAGMENT_SHADER]
        else [d.shaderName GL_VERTEX_SHADER]) ∧
    createdPrograms (vbo_pass_init d p px tw th sw sh).trace =
      (if d.compileStatus GL_VERTEX_SHADER = true ∧ d.compileStatus GL_FRAGMENT_SHADER = true
        then [d.programName] else []) ∧
    deletedPrograms (vbo_pass_init d p px tw th sw sh).trace =
      (if d.compileStatus GL_VERTEX_SHADER = true ∧ d.compileStatus GL_FRAGMENT_SHADER = true ∧
          d.linkStatus = false
        then [d.programName] else []) ∧
    ((vbo_pass_init d p px tw th sw sh).ret = 0 →
      liveObjects (vbo_pass_init d p px tw th sw sh).trace = []) ∧
    ((vbo_pass_init d p px tw th sw sh).ret = 1 →
      liveObjects (vbo_pass_init d p px tw th sw sh).trace =
        [GLObject.program (vbo_pass_init d p px tw th sw sh).pass.prog]) := by
  cases hv : d.compileStatus GL_VERTEX_SHADER
  · rw [init_of_vs_false d p px tw th sw sh hv]
    simp [compile_fail d _ _ hv, createdShaders, deletedShaders, createdPrograms,
      deletedPrograms, liveObjects, Call.track]
  · cases hf : d.compileStatus GL_FRAGMENT_SHADER
    · rw [init_of_fs_false d hd p px tw th sw sh hv hf]
      simp only [compile_fail d _ _ hf, compile_ok d _ _ hv]
      refine ⟨?_, ?_, ?_, ?_, ?_, ?_⟩
      · intro n
        simp [createdShaders, deletedShaders, List.count_cons]
        omega
      · simp [createdShaders]
      · simp [createdPrograms]
      · simp [deletedPrograms]
      · intro _
        by_cases he : d.shaderName GL_VERTEX_SHADER = d.shaderName GL_FRAGMENT_SHADER
        · simp [liveObjects, Call.track, he]
        · simp [liveObjects, Call.track, List.erase_cons, he]
      · intro h
        exact absurd h (by decide)
    · cases hl : d.linkStatus
      · rw [init_of_link_false d hd p px tw th sw sh hv hf hl]
        simp only [linkedCalls, compile_ok d _ _ hf, compile_ok d _ _ hv,
          link_fail d _ _ _ _ _ hl]
        refine ⟨?_, ?_, ?_, ?_, ?_, ?_⟩
        · intro n
          simp [createdShaders, deletedShaders]
        · simp [createdShaders]
        · simp [createdPrograms]
        · simp [deletedPrograms]
        · intro _
          simp [liveObjects, Call.track, List.erase_cons]
        · intro h
          exact absurd h (by decide)
      · rw [init_of_all_ok d hd p px tw th sw sh hv hf hl]
        obtain ⟨uw, uh, data, ht⟩ := make_texture_shape d px tw th
        simp only [linkedCalls, setupCalls, compile_ok d _ _ hf, compile_ok d _ _ hv,
          link_ok d _ _ _ _ _ hl, ht]
        refine ⟨?_, ?_, ?_, ?_, ?_, ?_⟩
        · intro n
          simp [createdShaders, deletedShaders]
        · simp [createdShaders]
        · simp [createdPrograms]
        · simp [deletedPrograms]
        · intro h
          exact absurd h (by decide)
        · intro _
          simp [liveObjects, Call.track, List.erase_cons]

/-- Witness for C9: after a link failure nothing is left alive. -/
theorem vbo_pass_init_objects_witness :
    liveObjects (vbo_pass_init (sampleDriver true true false) samplePass none 0 0 960 544).trace
      = [] :=
  (vbo_pass_init_objects (sampleDriver true true false)
    ⟨fun _ => by decide, fun _ => by decide, fun _ => by decide⟩
    samplePass none 0 0 960 544).2.2.2.2.1
    (by simp [vbo_pass_init, compile, link, sampleDriver])

/-- A non-zero result of `compile` is the driver's name of a shader reported as compiled. -/
lemma compile_ne_zero (d : Driver) (type : GLenum) (src : String)
    (h : (compile d type src).1 ≠ 0) :
    d.compileStatus type = true ∧ d.shaderName type ≠ 0 := by
  cases hs : d.compileStatus type
  · rw [compile_fail d _ _ hs] at h
    exact absurd rfl h
  · rw [compile_ok d _ _ hs] at h
    exact ⟨rfl, h⟩

/-- A non-zero result of `link` is the driver's name of a program reported as linked. -/
lemma link_ne_zero (d : Driver) (vs fs : GLuint) (pos col uv : String)
    (h : (link d vs fs pos col uv).1 ≠ 0) :
    d.linkStatus = true ∧ d.programName ≠ 0 := by
  cases hs : d.linkStatus
  · rw [link_fail d _ _ _ _ _ hs] at h
    exact absurd rfl h
  · rw [link_ok d _ _ _ _ _ hs] at h
    exact ⟨rfl, h⟩

/-- What a return value of 1 tells about the driver. -/
lemma init_ret_one (d : Driver) (p : VBO_Pass) (px : Option Pixels) (tw th sw sh : Int)
    (h : (vbo_pass_init d p px tw th sw sh).ret = 1) :
    d.NamesNonZero ∧ d.compileStatus GL_VERTEX_SHADER = true ∧
      d.compileStatus GL_FRAGMENT_SHADER = true ∧ d.linkStatus = true := by
  rcases init_ret_cases d p px tw th sw sh with ⟨h0, _⟩ | ⟨_, hv, hf, hl⟩
  · rw [h0] at h
    exact absurd h (by decide)
  · have h1 := compile_ne_zero d _ _ hv
    have h2 := compile_ne_zero d _ _ hf
    have h3 := link_ne_zero d _ _ _ _ _ hl
    exact ⟨⟨fun _ => h1.2, fun _ => h2.2, fun _ => h3.2⟩, h1.1, h2.1, h3.1⟩

/-- Without any assumption on the driver: `vbo_pass_init` returns 1 exactly when each of
the three steps is reported as successful and yields a non-zero name. -/
lemma init_ret_one_iff (d : Driver) (p : VBO_Pass) (px : Option Pixels) (tw th sw sh : Int) :
    (vbo_pass_init d p px tw th sw sh).ret = 1 ↔
      (d.compileStatus GL_VERTEX_SHADER = true ∧ d.shaderName GL_VERTEX_SHADER ≠ 0) ∧
      (d.compileStatus GL_FRAGMENT_SHADER = true ∧ d.shaderName GL_FRAGMENT_SHADER ≠ 0) ∧
      (d.linkStatus = true ∧ d.programName ≠ 0) := by
  constructor
  · intro h
    obtain ⟨hd, hv, hf, hl⟩ := init_ret_one d p px tw th sw sh h
    exact ⟨⟨hv, hd.1 hv⟩, ⟨hf, hd.2.1 hf⟩, ⟨hl, hd.2.2 hl⟩⟩
  · rintro ⟨⟨hv, hv0⟩, ⟨hf, hf0⟩, ⟨hl, hl0⟩⟩
    rw [init_of_all_ok d ⟨fun _ => hv0, fun _ => hf0, fun _ => hl0⟩ p px tw th sw sh hv hf hl]

/-- C2: on a successful `vbo_pass_init` exactly one texture image is uploaded, into the
texture `p->tex` bound for that purpose: if `texture_rgba8888` is NULL then, whatever
`tex_w` and `tex_h`, the image is 1x1 with the single pixel `0xFFFFFFFF`; the same holds
when `tex_w <= 0` or `tex_h <= 0`; and with non-NULL pixels, `tex_w > 0` and `tex_h > 0`
the image is `tex_w x tex_h` from the caller's pixels. -/
theorem vbo_pass_init_texture (d : Driver) (p : VBO_Pass) (px : Option Pixels)
    (tw th sw sh : Int) (hok : (vbo_pass_init d p px tw th sw sh).ret = 1) :
    (px = none →
      (vbo_pass_init d p px tw th sw sh).trace.filter Call.isTexImage =
        [glTexImage2D GL_TEXTURE_2D 0 GL_RGBA 1 1 0 GL_RGBA GL_UNSIGNED_BYTE [0xFFFFFFFF]]) ∧
    (tw ≤ 0 ∨ th ≤ 0 →
      (vbo_pass_init d p px tw th sw sh).trace.filter Call.isTexImage =
        [glTexImage2D GL_TEXTURE_2D 0 GL_RGBA 1 1 0 GL_RGBA GL_UNSIGNED_BYTE [0xFFFFFFFF]]) ∧
    (∀ data, px = some data → 0 < tw → 0 < th →
      (vbo_pass_init d p px tw th sw sh).trace.filter Call.isTexImage =
        [glTexImage2D GL_TEXTURE_2D 0 GL_RGBA tw th 0 GL_RGBA GL_UNSIGNED_BYTE data]) ∧
    (∀ s0 : GLState,
      (s0.run ((vbo_pass_init d p px tw th sw sh).trace.takeWhile
          fun c => !c.isTexImage)).texture2D
        (s0.run ((vbo_pass_init d p px tw th sw sh).trace.takeWhile
          fun c => !c.isTexImage)).activeTexture =
        (vbo_pass_init d p px tw th sw sh).pass.tex) := by
  obtain ⟨hd, hv, hf, hl⟩ := init_ret_one d p px tw th sw sh hok
  rw [init_of_all_ok d hd p px tw th sw sh hv hf hl]
  simp only [linkedCalls, setupCalls, compile_ok d _ _ hf, compile_ok d _ _ hv,
    link_ok d _ _ _ _ _ hl]
  refine ⟨?_, ?_, ?_, ?_⟩
  · intro hn
    subst hn
    simp [make_texture_rgba8888, Call.isTexImage]
  · intro hc
    cases px with
    | none => simp [make_texture_rgba8888, Call.isTexImage]
    | some data => simp [make_texture_rgba8888, Call.isTexImage, hc]
  · intro data hpx hw hh
    subst hpx
    have hc : ¬ (tw ≤ 0 ∨ th ≤ 0) := by omega
    simp [make_texture_rgba8888, Call.isTexImage, hc]
  · intro s0
    obtain ⟨uw, uh, data, ht⟩ := make_texture_shape d px tw th
    rw [ht]
    simp [Call.isTexImage, GLState.run, Call.exec]

/-- Witness for C2: a NULL texture with a stray 64x64 size still uploads 1x1 white. -/
theorem vbo_pass_init_texture_witness :
    (vbo_pass_init (sampleDriver true true true) samplePass none 64 64 960 544).trace.filter
        Call.isTexImage =
      [glTexImage2D GL_TEXTURE_2D 0 GL_RGBA 1 1 0 GL_RGBA GL_UNSIGNED_BYTE [0xFFFFFFFF]] :=
  (vbo_pass_init_texture (sampleDriver true true true) samplePass none 64 64 960 544
    (by simp [vbo_pass_init, compile, link, sampleDriver])).1 rfl

/-- C7: a successful `vbo_pass_init` uploads exactly two buffers, the vertex array and the
index array; the vertices are (100,100), (356,100), (356,356), (100,356) with colour
(1,1,1,1) and texcoords (0,0), (1,0), (1,1), (0,1), each texcoord being
(position - (100,100)) / 256; the indices 0,1,2,0,2,3 are all below 4, reference every
vertex and form the two triangles (0,1,2) and (0,2,3), which share the diagonal 0-2, have
signed areas of the same sign and areas summing to 256*256. -/
theorem vbo_pass_init_geometry (d : Driver) (p : VBO_Pass) (px : Option Pixels)
    (tw th sw sh : Int) (hok : (vbo_pass_init d p px tw th sw sh).ret = 1) :
    (vbo_pass_init d p px tw th sw sh).trace.filter Call.isBufferData =
      [glBufferData GL_ARRAY_BUFFER 128 (BufferPayload.verts init_verts) GL_STATIC_DRAW,
       glBufferData GL_ELEMENT_ARRAY_BUFFER 12 (BufferPayload.indices init_idx)
         GL_STATIC_DRAW] ∧
    init_verts =
      [ { x := 100, y := 100, r := 1, g := 1, b := 1, a := 1, u := 0, v := 0 },
        { x := 356, y := 100, r := 1, g := 1, b := 1, a := 1, u := 1, v := 0 },
        { x := 356, y := 356, r := 1, g := 1, b := 1, a := 1, u := 1, v := 1 },
        { x := 100, y := 356, r := 1, g := 1, b := 1, a := 1, u := 0, v := 1 } ] ∧
    (∀ vtx ∈ init_verts, vtx.u = (vtx.x - 100) / 256 ∧ vtx.v = (vtx.y - 100) / 256) ∧
    init_idx = [0, 1, 2, 0, 2, 3] ∧
    (∀ i ∈ init_idx, i < init_verts.length) ∧
    (∀ k, k < init_verts.length → k ∈ init_idx) ∧
    triangles init_idx = [(0, 1, 2), (0, 2, 3)] ∧
    (∀ tri ∈ triangles init_idx,
      0 ∈ [tri.1, tri.2.1, tri.2.2] ∧ 2 ∈ [tri.1, tri.2.1, tri.2.2]) ∧
    (∃ a1 a2 : GLfloat,
      triangleArea init_verts (0, 1, 2) = some a1 ∧
      triangleArea init_verts (0, 2, 3) = some a2 ∧
      0 < a1 * a2 ∧ |a1| + |a2| = 256 * 256) := by
  obtain ⟨hd, hv, hf, hl⟩ := init_ret_one d p px tw th sw sh hok
  rw [init_of_all_ok d hd p px tw th sw sh hv hf hl]
  obtain ⟨uw, uh, data, ht⟩ := make_texture_shape d px tw th
  simp only [linkedCalls, setupCalls, compile_ok d _ _ hf, compile_ok d _ _ hv,
    link_ok d _ _ _ _ _ hl, ht]
  refine ⟨by simp [Call.isBufferData], ?_, ?_, rfl, ?_, ?_, rfl, ?_, ?_⟩
  · simp [init_verts]
    norm_num
  · intro vtx hvtx
    simp [init_verts] at hvtx
    rcases hvtx with h | h | h | h <;> subst h <;> norm_num
  · intro i hi
    simp [init_idx] at hi
    simp [init_verts]
    omega
  · intro k hk
    simp [init_verts] at hk
    simp [init_idx]
    omega
  · intro tri htri
    simp [init_idx, triangles] at htri
    rcases htri with h | h <;> subst h <;> simp
  · refine ⟨32768, 32768, ?_, ?_, by norm_num, by norm_num⟩
    · simp [triangleArea, init_verts, signedArea]
      norm_num
    · simp [triangleArea, init_verts, signedArea]
      norm_num

/-- Witness for C7: the buffers uploaded with a driver for which everything succeeds. -/
theorem vbo_pass_init_geometry_witness :
    (vbo_pass_init (sampleDriver true true true) samplePass none 0 0 960 544).trace.filter
        Call.isBufferData =
      [glBufferData GL_ARRAY_BUFFER 128 (BufferPayload.verts init_verts) GL_STATIC_DRAW,
       glBufferData GL_ELEMENT_ARRAY_BUFFER 12 (BufferPayload.indices init_idx)
         GL_STATIC_DRAW] :=
  (vbo_pass_init_geometry (sampleDriver true true true) samplePass none 0 0 960 544
    (by simp [vbo_pass_init, compile, link, sampleDriver])).1

/-- C4: for every pass state `p`, the trace of one `vbo_pass_draw(p)` contains exactly one
draw call, `glDrawElements(GL_TRIANGLES, 6, GL_UNSIGNED_SHORT, 0)`; when it is issued, from
whatever GL context the call started, the program in use is `p->prog`, the texture bound on
unit 0 is `p->tex`, the array buffer is `p->vbo`, the element buffer is `p->ibo` and the
matrix uploaded to location `p->u_proj` of that program is `p->proj`; `p` is unchanged. -/
theorem vbo_pass_draw_spec (p : VBO_Pass) :
    (vbo_pass_draw p).2.filter Call.isDraw =
      [glDrawElements GL_TRIANGLES 6 GL_UNSIGNED_SHORT 0] ∧
    (∀ s0 : GLState,
      (s0.run ((vbo_pass_draw p).2.takeWhile fun c => !c.isDraw)).program = p.prog ∧
      (s0.run ((vbo_pass_draw p).2.takeWhile fun c => !c.isDraw)).texture2D GL_TEXTURE0
        = p.tex ∧
      (s0.run ((vbo_pass_draw p).2.takeWhile fun c => !c.isDraw)).arrayBuffer = p.vbo ∧
      (s0.run ((vbo_pass_draw p).2.takeWhile fun c => !c.isDraw)).elementArrayBuffer
        = p.ibo ∧
      (s0.run ((vbo_pass_draw p).2.takeWhile fun c => !c.isDraw)).uniformMat4 p.prog p.u_proj
        = some p.proj) ∧
    (vbo_pass_draw p).1 = p := by
  refine ⟨?_, ?_, rfl⟩
  · simp [vbo_pass_draw, Call.isDraw]
  · intro s0
    simp [vbo_pass_draw, Call.isDraw, GLState.run, Call.exec]

/-- The trace and the final state of `vbo_pass_shutdown`. -/
lemma shutdown_eq (p : VBO_Pass) :
    vbo_pass_shutdown p =
      ({ p with tex := 0, vbo := 0, ibo := 0, prog := 0 },
       (if p.tex ≠ 0 then [glDeleteTextures 1 p.tex] else []) ++
       (if p.vbo ≠ 0 then [glDeleteBuffers 1 p.vbo] else []) ++
       (if p.ibo ≠ 0 then [glDeleteBuffers 1 p.ibo] else []) ++
       (if p.prog ≠ 0 then [glDeleteProgram p.prog] else [])) := by
  obtain ⟨prog, u_proj, u_sampler, a_pos, a_col, a_uv, vbo, ibo, tex, proj⟩ := p
  by_cases h1 : tex = 0 <;> by_cases h2 : vbo = 0 <;> by_cases h3 : ibo = 0 <;>
    by_cases h4 : prog = 0 <;> simp [vbo_pass_shutdown, h1, h2, h3, h4]

/-- C6: for every pass state `p`, `vbo_pass_shutdown` issues a GL delete for exactly those
of `tex`, `vbo`, `ibo`, `prog` that are non-zero (in that order), leaves all four 0 and
changes no other field; so a second shutdown, and a shutdown right after a failed
`vbo_pass_init`, issues no GL call and leaves the state unchanged. -/
theorem vbo_pass_shutdown_spec (p : VBO_Pass) :
    (vbo_pass_shutdown p).2 =
      (if p.tex ≠ 0 then [glDeleteTextures 1 p.tex] else []) ++
      (if p.vbo ≠ 0 then [glDeleteBuffers 1 p.vbo] else []) ++
      (if p.ibo ≠ 0 then [glDeleteBuffers 1 p.ibo] else []) ++
      (if p.prog ≠ 0 then [glDeleteProgram p.prog] else []) ∧
    (vbo_pass_shutdown p).1 = { p with tex := 0, vbo := 0, ibo := 0, prog := 0 } ∧
    vbo_pass_shutdown (vbo_pass_shutdown p).1 = ((vbo_pass_shutdown p).1, []) ∧
    (∀ (d : Driver) (q : VBO_Pass) (px : Option Pixels) (tw th sw sh : Int),
      (vbo_pass_init d q px tw th sw sh).ret = 0 →
      vbo_pass_shutdown (vbo_pass_init d q px tw th sw sh).pass =
        ((vbo_pass_init d q px tw th sw sh).pass, [])) := by
  refine ⟨?_, ?_, ?_, ?_⟩
  · rw [shutdown_eq]
  · rw [shutdown_eq]
  · rw [shutdown_eq p, shutdown_eq]
    simp
  · intro d q px tw th sw sh h
    rcases init_ret_cases d q px tw th sw sh with ⟨_, hz⟩ | ⟨h1, _⟩
    · rw [hz, shutdown_eq]
      simp [VBO_Pass.zero]
    · rw [h1] at h
      exact absurd h (by decide)

/-- Witness for C6: shutting down after a failed vertex compile issues no GL call. -/
theorem vbo_pass_shutdown_spec_witness :
    vbo_pass_shutdown
        (vbo_pass_init (sampleDriver false true true) samplePass none 0 0 960 544).pass =
      ((vbo_pass_init (sampleDriver false true true) samplePass none 0 0 960 544).pass, []) :=
  (vbo_pass_shutdown_spec samplePass).2.2.2 (sampleDriver false true true) samplePass none
    0 0 960 544 (by simp [vbo_pass_init, compile, sampleDriver])

end VboPass
